import Mathlib

/-!
Verification development for the jobspy scraper API.

This file gives a shallow embedding, in Lean 4, of the request-handling
code of the repository (src/api/job_api.py, src/models/job_models.py,
src/core/mongodb.py, src/api/log_api.py, src/main.py) and proves or
refutes the frozen specification claims about it.

Python runtime values that can appear in a raw scraped job record are
modelled by the inductive type PyVal; a raw record is an association
list from field name to value, mirroring the mapping-style access
(job.get) performed by the orchestrator.  Machine floats are modelled
by rationals plus an explicit NaN constructor, since the code only ever
tests floats for NaN-ness and truthiness and never does arithmetic on
them.
-/

/-- A Python runtime value as handled by the job normalizer.  vNone is
Python None, vNaN is the float nan sentinel used by the scraper for
missing fields, vFloat is a non-NaN float (modelled as a rational). -/
inductive PyVal where
  | vNone : PyVal
  | vNaN : PyVal
  | vFloat (q : ℚ) : PyVal
  | vInt (n : ℤ) : PyVal
  | vStr (s : String) : PyVal
  | vBool (b : Bool) : PyVal
deriving DecidableEq, Repr

open PyVal

/-- Python truthiness of a value: None is falsy, nan is truthy, numbers
are truthy iff nonzero, strings iff nonempty. -/
def truthy : PyVal → Bool
  | vNone => false
  | vNaN => true
  | vFloat q => decide (q ≠ 0)
  | vInt n => decide (n ≠ 0)
  | vStr s => decide (s ≠ "")
  | vBool b => b

/-- src/api/job_api.py, handle_nan: convert NaN values to None, leave
every other value unchanged. -/
def handle_nan : PyVal → PyVal
  | vNaN => vNone
  | v => v

/-- Python short-circuit or on values: the first operand if it is
truthy, otherwise the second. -/
def pyOr (a b : PyVal) : PyVal :=
  if truthy a then a else b

/-- Python str() conversion, as used on the date_posted field. -/
def pyStr : PyVal → String
  | vNone => "None"
  | vNaN => "nan"
  | vFloat q => toString q
  | vInt n => toString n
  | vStr s => s
  | vBool b => if b then "True" else "False"

/-- A raw job record returned by the external scraper: a mapping from
field name to value, accessed with a default like Python .get. -/
abbrev RawJob := List (String × PyVal)

/-- Python mapping .get with an explicit default: the stored value when
the key is present, the default otherwise. -/
def pyGet (job : RawJob) (key : String) (dflt : PyVal) : PyVal :=
  match job.lookup key with
  | some v => v
  | none => dflt

/-- Python mapping .get with the implicit default None. -/
def pyGetNone (job : RawJob) (key : String) : PyVal :=
  pyGet job key vNone

/-- Python str.lower(), over the character list (ASCII lowering, which
covers every token the validators compare against). -/
def pyLower (s : String) : String :=
  String.mk (s.toList.map Char.toLower)

/-- Python str.strip(): drop whitespace from both ends. -/
def pyStrip (s : String) : String :=
  String.mk (((s.toList.dropWhile Char.isWhitespace).reverse.dropWhile
    Char.isWhitespace).reverse)

/-- Helper for pySplit: split a character list on a separator.  The
result always has at least one group, exactly like Python str.split. -/
def pySplitChars (sep : Char) : List Char → List (List Char)
  | [] => [[]]
  | c :: cs =>
    match pySplitChars sep cs with
    | [] => [[c]]
    | g :: gs => if c = sep then [] :: g :: gs else (c :: g) :: gs

/-- Python str.split on a one-character separator.  On the empty string
it returns one empty token, never the empty list. -/
def pySplit (s : String) (sep : Char) : List String :=
  (pySplitChars sep s.toList).map fun cs => String.mk cs

/-- Conversion of one list element for a Python string join. -/
def pyJoinVal : PyVal → String
  | vStr s => s
  | v => pyStr v

/-- Python expression: comma-space join of the truthy elements, as in
join filter None over the city/state pair. -/
def pyJoinComma (vs : List PyVal) : String :=
  String.intercalate ", " ((vs.filter truthy).map pyJoinVal)

/-- The job_location computation of get_jobs (src/api/job_api.py lines
188 to 193): prefer the NaN-coerced location field when truthy, else
join the truthy members of the NaN-coerced city/state pair. -/
def resolveLocation (job : RawJob) : PyVal :=
  let l := handle_nan (pyGet job "location" (vStr ""))
  if truthy l then l
  else vStr (pyJoinComma
    [handle_nan (pyGet job "city" (vStr "")),
     handle_nan (pyGet job "state" (vStr ""))])

/-- The eleven argument expressions of the JobResponse construction in
get_jobs (src/api/job_api.py lines 195 to 207), i.e. the normalizer
output for one raw record, before pydantic validation. -/
structure JobFields where
  source_website : PyVal
  job_title : PyVal
  company : PyVal
  location : PyVal
  date_posted : PyVal
  job_type : PyVal
  salary : PyVal
  currency : PyVal
  is_remote : PyVal
  job_description : PyVal
  experience_range : PyVal
deriving DecidableEq, Repr

/-- The per-record normalization in get_jobs (src/api/job_api.py lines
187 to 207), field by field as written at the JobResponse call site. -/
def normalizeJob (job : RawJob) : JobFields where
  source_website := handle_nan (pyGet job "site" (vStr ""))
  job_title := handle_nan (pyGet job "title" (vStr ""))
  company := pyOr (handle_nan (pyGetNone job "company")) (vStr "Unknown Company")
  location := resolveLocation job
  date_posted := vStr (pyStr (handle_nan (pyGet job "date_posted" (vStr ""))))
  job_type := handle_nan (pyGetNone job "job_type")
  salary := handle_nan (pyOr (pyGetNone job "min_amount") (pyGetNone job "max_amount"))
  currency := handle_nan (pyGet job "currency" (vStr "USD"))
  is_remote := handle_nan (pyGet job "is_remote" (vBool false))
  job_description := handle_nan (pyGet job "description" (vStr ""))
  experience_range := handle_nan (pyGetNone job "experience_range")

/-- A successfully validated JobResponse (src/models/job_models.py
lines 23 to 37): the six required fields carry concrete values, the
optional fields keep their supplied values. -/
structure JobResponseOk where
  total_results : ℤ
  source_website : String
  job_title : String
  company : String
  location : String
  date_posted : String
  job_type : PyVal
  salary : PyVal
  currency : PyVal
  is_remote : PyVal
  job_description : PyVal
  experience_range : PyVal
deriving DecidableEq, Repr

/-- Pydantic construction of JobResponse.  total_results is declared
required (Field(...)) with no default, so a construction that does not
supply it fails validation; the required string fields must receive
strings.  The raised ValidationError is a ValueError, caught by
get_jobs and turned into an HTTP 400 response. -/
def JobResponse.construct (total_results : Option ℤ) (f : JobFields) :
    Except String JobResponseOk :=
  match total_results with
  | none => Except.error "total_results: Field required"
  | some n =>
    match f.source_website, f.job_title, f.company, f.location, f.date_posted with
    | vStr sw, vStr jt, vStr co, vStr lo, vStr dp =>
      Except.ok
        ⟨n, sw, jt, co, lo, dp, f.job_type, f.salary, f.currency,
         f.is_remote, f.job_description, f.experience_range⟩
    | _, _, _, _, _ => Except.error "string field: Input should be a valid string"

/-- The per-record conversion performed by get_jobs: it constructs a
JobResponse from the normalized fields and never supplies
total_results. -/
def convertJob (job : RawJob) : Except String JobResponseOk :=
  JobResponse.construct none (normalizeJob job)

/-- The conversion loop over one scrape result (for job in
jobs.iterrows), which raises at the first failing record. -/
def convertAll : List RawJob → Except String (List JobResponseOk)
  | [] => Except.ok []
  | j :: js =>
    match convertJob j with
    | Except.error e => Except.error e
    | Except.ok out =>
      match convertAll js with
      | Except.error e => Except.error e
      | Except.ok outs => Except.ok (out :: outs)

deriving instance DecidableEq for Except

/-- The valid site identifiers of JobSearchParams.validate_site_name
(src/models/job_models.py line 128). -/
def validSites : Finset String :=
  {"linkedin", "indeed", "zip_recruiter", "glassdoor", "google", "bayt"}

/-- The valid job types, the values of the JobType enum
(src/models/job_models.py lines 7 to 13). -/
def validJobTypes : Finset String :=
  {"fulltime", "parttime", "internship", "contract"}

/-- Payload of the ValueError raised by a token validator: the set of
invalid tokens named in the message and the full valid set listed after
them.  The joined message text itself is not modelled because Python
set iteration order is unspecified; the information content is. -/
structure TokenError where
  invalid : Finset String
  valid : Finset String
deriving DecidableEq

/-- JobSearchParams.validate_site_name (src/models/job_models.py lines
122 to 139), on the list branch used by the endpoint: strip and
lowercase every token into a set, fail when any token falls outside
the valid sites, otherwise return the set.  (The source returns
list(sites); the list order of a Python set is unspecified, so the set
itself is the faithful observable.) -/
def validate_site_name (v : Option (List String)) :
    Except TokenError (Option (Finset String)) :=
  match v with
  | none => Except.ok none
  | some l =>
    let sites : Finset String := (l.map fun s => pyLower (pyStrip s)).toFinset
    let invalid := sites \ validSites
    if invalid = ∅ then Except.ok (some sites) else Except.error ⟨invalid, validSites⟩

/-- JobSearchParams.validate_job_type (src/models/job_models.py lines
141 to 155): split on comma, strip and lowercase into a set, fail when
any token falls outside the valid types; on success return the
ORIGINAL string v unchanged (not the lowercased set). -/
def validate_job_type (v : Option String) : Except TokenError (Option String) :=
  match v with
  | none => Except.ok none
  | some s =>
    let types : Finset String := ((pySplit s ',').map fun t => pyLower (pyStrip t)).toFinset
    let invalid := types \ validJobTypes
    if invalid = ∅ then Except.ok (some s) else Except.error ⟨invalid, validJobTypes⟩

/-- One (search_term, location, job_type) tuple of the cartesian
product iterated by get_jobs. -/
structure Combo where
  search_term : Option String
  location : Option String
  job_type : Option String
deriving DecidableEq, Repr

/-- Comma-splitting of an optional query parameter (src/api/job_api.py
lines 144 to 146): a None or empty string collapses to the single
absent marker, otherwise each comma-separated token is stripped. -/
def splitParam : Option String → List (Option String)
  | none => [none]
  | some s => if s = "" then [none] else (pySplit s ',').map fun t => some (pyStrip t)

/-- Comma-splitting of the site_name parameter (src/api/job_api.py
line 147): empty string gives the empty list, otherwise stripped
tokens. -/
def splitSites (site_name : String) : List String :=
  if site_name = "" then [] else (pySplit site_name ',').map pyStrip

/-- The inner two loops of get_jobs for one fixed search term:
location middle, job_type innermost, each list in declaration
order. -/
def comboBlock (t : Option String) (ls js : List (Option String)) : List Combo :=
  ls.flatMap fun l => js.map fun j => ⟨t, l, j⟩

/-- The triple-nested loop order of get_jobs (src/api/job_api.py lines
153 to 155): search_term outermost, location middle, job_type
innermost, each list in declaration order. -/
def combos (ts ls js : List (Option String)) : List Combo :=
  ts.flatMap fun t => comboBlock t ls js

/-- The errors collected by a failing JobSearchParams construction:
pydantic runs both field validators and reports every failing field in
one ValidationError. -/
structure ParamsError where
  siteError : Option TokenError
  jobTypeError : Option TokenError
deriving DecidableEq

/-- The validated fields of JobSearchParams relevant to the claims; the
remaining scalar fields are passed through unvalidated (verbose is
range-checked by FastAPI before the handler runs). -/
structure JobSearchParamsOk where
  site_name : Option (Finset String)
  job_type : Option String
deriving DecidableEq

/-- First component of an Except as an Option, used to record which of
the two field validators failed. -/
def Except.errOpt : Except ε α → Option ε
  | Except.ok _ => none
  | Except.error e => some e

/-- The JobSearchParams construction performed once per combination
(src/api/job_api.py lines 159 to 179): both field validators run; if
either fails pydantic raises one ValidationError carrying every field
error (a ValueError, caught by get_jobs as HTTP 400). -/
def validateParams (sites : List String) (jt : Option String) :
    Except ParamsError JobSearchParamsOk :=
  let r1 := validate_site_name (some sites)
  let r2 := validate_job_type jt
  match r1, r2 with
  | Except.ok s, Except.ok t => Except.ok ⟨s, t⟩
  | _, _ => Except.error ⟨r1.errOpt, r2.errOpt⟩

/-- The error responses of get_jobs: a ValueError (pydantic validation
of the search parameters, or of a JobResponse) becomes an HTTP 400
client error; any other exception becomes an HTTP 500. -/
inductive ApiError where
  | paramsError (e : ParamsError)
  | conversionError (e : String)
deriving DecidableEq

/-- The success body of the endpoint: JobSearchResponse with
total_results and the ordered job list. -/
structure JobSearchResponseOk where
  total_results : ℕ
  jobs : List JobResponseOk
deriving DecidableEq, Repr

/-- The query parameters of get_jobs that feed the combination loop;
the remaining parameters are inert pass-through scalars.  The declared
default of site_name is "linkedin,indeed,glassdoor,google". -/
structure RequestArgs where
  site_name : String
  search_term : Option String
  location : Option String
  job_type : Option String
deriving DecidableEq, Repr

/-- The default site_name of the endpoint (src/api/job_api.py line 43). -/
def defaultSiteName : String := "linkedin,indeed,glassdoor,google"

/-- The body of the triple loop of get_jobs (src/api/job_api.py lines
153 to 208), one combination at a time: validate the merged parameter
set, invoke the scraper once, add the raw count to the running total,
convert every record; the first raised error aborts the remaining
combinations.  The second component is the trace of combinations for
which a scrape call was actually issued, in issue order. -/
def runCombos (scrape : Combo → List RawJob) (sites : List String) :
    List Combo → ℕ → List JobResponseOk →
    Except ApiError (ℕ × List JobResponseOk) × List Combo
  | [], total, acc => (Except.ok (total, acc), [])
  | c :: rest, total, acc =>
    match validateParams sites c.job_type with
    | Except.error e => (Except.error (ApiError.paramsError e), [])
    | Except.ok _ =>
      let jobs := scrape c
      match convertAll jobs with
      | Except.error e => (Except.error (ApiError.conversionError e), [c])
      | Except.ok outs =>
        let r := runCombos scrape sites rest (total + jobs.length) (acc ++ outs)
        (r.1, c :: r.2)

/-- The get_jobs endpoint (src/api/job_api.py lines 40 to 222),
parameterized by the external scraper.  It splits the comma-separated
inputs, iterates the cartesian product in declaration order and either
returns the aggregated JobSearchResponse or the first error.  The
second component is the trace of issued scrape calls. -/
def get_jobs (scrape : Combo → List RawJob) (args : RequestArgs) :
    Except ApiError JobSearchResponseOk × List Combo :=
  let search_terms := splitParam args.search_term
  let locations := splitParam args.location
  let job_types := splitParam args.job_type
  let sites := splitSites args.site_name
  let r := runCombos scrape sites (combos search_terms locations job_types) 0 []
  (match r.1 with
   | Except.ok (total, acc) => Except.ok ⟨total, acc⟩
   | Except.error e => Except.error e, r.2)

/-- The header sanitization of RequestLogger.log_request
(src/core/mongodb.py line 100): drop every pair whose key lowercases to
authorization, keep everything else unchanged. -/
def filterHeaders (headers : List (String × String)) : List (String × String) :=
  headers.filter fun kv => pyLower kv.1 != "authorization"

/-- The persisted audit record, RequestLog (src/models/log_models.py);
the timestamp default is not modelled. -/
structure RequestLog where
  request_id : String
  method : String
  path : String
  query_params : List (String × String)
  headers : List (String × String)
  client_ip : Option String
  response_status : ℕ
  response_time_ms : ℚ
  user_agent : Option String
deriving DecidableEq, Repr

/-- Errors of the persistence layer: the loud not-initialized
RuntimeError, and a re-raised insert/read failure. -/
inductive LogError where
  | notInitialized
  | insertFailed (msg : String)
  | readFailed (msg : String)
deriving DecidableEq, Repr

/-- The process-wide MongoDB handle state (class attributes of MongoDB
in src/core/mongodb.py) together with the observable store state:
whether connect_to_mongodb assigned the collection handle, the
configured collection name, the names of collections that exist in the
database, and the documents of the audit collection. -/
structure MongoState where
  initialized : Bool
  collectionName : String
  collections : List String
  docs : List RequestLog

/-- MongoDB.log_request (src/core/mongodb.py lines 45 to 55): raise
RuntimeError when the collection handle was never initialized;
otherwise attempt the insert, and on failure log the error and
RE-RAISE it.  The insert outcome of the store is a parameter. -/
def MongoDB.log_request (st : MongoState) (insert : Except String Unit) :
    Except LogError Unit :=
  if st.initialized = false then Except.error LogError.notInitialized
  else
    match insert with
    | Except.ok _ => Except.ok ()
    | Except.error e => Except.error (LogError.insertFailed e)

/-- MongoDB.get_logs (src/core/mongodb.py lines 57 to 75): raise when
not initialized; return the empty list when the configured collection
does not exist; otherwise find with skip and limit. -/
def MongoDB.get_logs (st : MongoState) (skip limit : ℕ) :
    Except LogError (List RequestLog) :=
  if st.initialized = false then Except.error LogError.notInitialized
  else if st.collectionName ∈ st.collections then
    Except.ok ((st.docs.drop skip).take limit)
  else Except.ok []

/-- The RequestLog constructed by RequestLogger.log_request
(src/core/mongodb.py lines 94 to 105): a fresh uuid, the request
metadata, and the headers with the authorization key stripped. -/
def RequestLogger.mkLog (uuid method path : String)
    (query_params headers : List (String × String)) (client_ip : Option String)
    (response_status : ℕ) (response_time_ms : ℚ) (user_agent : Option String) :
    RequestLog :=
  ⟨uuid, method, path, query_params, filterHeaders headers, client_ip,
   response_status, response_time_ms, user_agent⟩

/-- The HTTP response computed by the inner application before the
logging middleware persists the audit record. -/
structure HttpResponse where
  status : ℕ
  body : String
deriving DecidableEq, Repr

/-- The log_requests middleware of src/main.py (lines 38 to 69): after
computing the response it awaits RequestLogger.log_request with no
exception handler, so a persistence error propagates out of the
middleware instead of the response being returned.  The middleware is
modelled given the computed response, the handle state and the insert
outcome of the store. -/
def log_requests (response : HttpResponse) (st : MongoState)
    (insert : Except String Unit) : Except LogError HttpResponse :=
  match MongoDB.log_request st insert with
  | Except.ok _ => Except.ok response
  | Except.error e => Except.error e

/-- The logs endpoint (src/api/log_api.py lines 9 to 24): FastAPI
enforces skip at least 0 and limit between 1 and 1000, then the
endpoint returns MongoDB.get_logs unchanged. -/
def LogApi.get_logs (st : MongoState) (skip limit : ℕ) :
    Except LogError (List RequestLog) :=
  MongoDB.get_logs st skip limit

/-! Helper lemmas -/

/-- A test for the NaN sentinel, used to state the NaN invariant. -/
def notNaN (v : PyVal) : Bool := v != vNaN

/-- The list of all eleven fields of a normalized job. -/
def jobFieldList (f : JobFields) : List PyVal :=
  [f.source_website, f.job_title, f.company, f.location, f.date_posted,
   f.job_type, f.salary, f.currency, f.is_remote, f.job_description,
   f.experience_range]

theorem notNaN_handle_nan (v : PyVal) : notNaN (handle_nan v) = true := by
  cases v <;> rfl

theorem notNaN_pyOr (a b : PyVal) (ha : notNaN a = true) (hb : notNaN b = true) :
    notNaN (pyOr a b) = true := by
  unfold pyOr; split <;> assumption

theorem notNaN_resolveLocation (job : RawJob) :
    notNaN (resolveLocation job) = true := by
  simp only [resolveLocation]
  split
  · exact notNaN_handle_nan _
  · rfl

/-! Claim C5 -/

/-- Claim C5: for every raw job record, no field of the normalized job
is the floating-point NaN sentinel; every NaN-valued raw field has been
rewritten by handle_nan to the explicit absent value None (distinct
from the empty string) before leaving the normalizer. -/
theorem no_nan_leaves_normalizer (job : RawJob) :
    (jobFieldList (normalizeJob job)).all notNaN = true := by
  simp only [jobFieldList, normalizeJob, List.all_cons, List.all_nil,
    Bool.and_eq_true]
  exact ⟨notNaN_handle_nan _, notNaN_handle_nan _,
    notNaN_pyOr _ _ (notNaN_handle_nan _) rfl, notNaN_resolveLocation _,
    rfl, notNaN_handle_nan _, notNaN_handle_nan _, notNaN_handle_nan _,
    notNaN_handle_nan _, notNaN_handle_nan _, notNaN_handle_nan _, trivial⟩

/-! Claim C3 -/

/-- A raw record whose minimum amount is present but zero: Python or
treats the falsy 0.0 like an absent value and falls through to the
maximum. -/
def rawZeroMin : RawJob := [("min_amount", vFloat 0), ("max_amount", vFloat 100)]

/-- Claim C3 counterexample: on a record whose minimum-amount field is
present with value 0.0 and whose maximum-amount is 100.0, the
normalized salary is 100.0, not the present minimum 0.0 the claim
requires. -/
theorem salary_prefers_min_cex :
    rawZeroMin.lookup "min_amount" = some (vFloat 0) ∧
    (normalizeJob rawZeroMin).salary = vFloat 100 ∧
    (vFloat 100 : PyVal) ≠ vFloat 0 := by decide

/-- Claim C3 as amended: the normalized salary is the NaN-coercion of
the minimum-amount field when that field is truthy (present and
neither None, zero nor empty; NaN counts as truthy and is then coerced
to the absent value), and otherwise the NaN-coercion of the
maximum-amount field; in particular a present-but-zero minimum yields
the maximum and a NaN minimum yields the absent value. -/
theorem salary_resolution (job : RawJob) :
    (truthy (pyGetNone job "min_amount") = true →
      (normalizeJob job).salary = handle_nan (pyGetNone job "min_amount")) ∧
    (truthy (pyGetNone job "min_amount") = false →
      (normalizeJob job).salary = handle_nan (pyGetNone job "max_amount")) ∧
    (pyGetNone job "min_amount" = vNaN → (normalizeJob job).salary = vNone) := by
  refine ⟨fun h => ?_, fun h => ?_, fun h => ?_⟩
  · simp [normalizeJob, pyOr, h]
  · simp [normalizeJob, pyOr, h]
  · simp [normalizeJob, pyOr, h, truthy, handle_nan]

/-- Witness for the amended claim C3, at the concrete record with a
zero minimum. -/
theorem salary_resolution_w :
    (normalizeJob rawZeroMin).salary =
      handle_nan (pyGetNone rawZeroMin "max_amount") :=
  (salary_resolution rawZeroMin).2.1 (by decide)

/-! Claim C6 -/

/-- A raw record whose currency and remote-flag fields are present but
NaN. -/
def rawNaNCurrency : RawJob := [("currency", vNaN), ("is_remote", vNaN)]

/-- Claim C6 counterexample: on a record whose currency field is
present with value NaN, the normalized currency is None: neither the
raw value (as the claim requires for a present field) nor the
USD default. -/
theorem currency_remote_defaults_cex :
    rawNaNCurrency.lookup "currency" = some vNaN ∧
    (normalizeJob rawNaNCurrency).currency = vNone ∧
    (vNone : PyVal) ≠ vNaN ∧ (vNone : PyVal) ≠ vStr "USD" := by decide

/-- Claim C6 as amended: the normalized currency is USD exactly when
the currency key is missing from the raw record, and otherwise the
NaN-coercion of the raw value (so a NaN currency becomes the absent
value, not the raw NaN); likewise the remote flag defaults to false
when the key is missing and is otherwise the NaN-coercion of the raw
value. -/
theorem currency_remote_defaults (job : RawJob) :
    (job.lookup "currency" = none → (normalizeJob job).currency = vStr "USD") ∧
    (∀ v, job.lookup "currency" = some v →
      (normalizeJob job).currency = handle_nan v) ∧
    (job.lookup "is_remote" = none → (normalizeJob job).is_remote = vBool false) ∧
    (∀ v, job.lookup "is_remote" = some v →
      (normalizeJob job).is_remote = handle_nan v) := by
  refine ⟨fun h => ?_, fun v h => ?_, fun h => ?_, fun v h => ?_⟩ <;>
    simp [normalizeJob, pyGet, h, handle_nan]

/-- Witness for the amended claim C6, at the concrete record with a
NaN currency. -/
theorem currency_remote_defaults_w :
    (normalizeJob rawNaNCurrency).currency = handle_nan vNaN :=
  (currency_remote_defaults rawNaNCurrency).2.1 vNaN (by decide)

/-! Claim C2 -/

/-- A computed 200 response, for the audit-persistence counterexample. -/
def respOk : HttpResponse := ⟨200, "jobs"⟩

/-- An initialized persistence handle state. -/
def stConnected : MongoState := ⟨true, "api_logs", ["api_logs"], []⟩

/-- Claim C2 counterexample: with an initialized connection and a
failing insert, the middleware result is the re-raised persistence
error, not the original 200 response: the persistence error is
surfaced and the caller does not receive the response. -/
theorem audit_not_fire_and_forget_cex :
    log_requests respOk stConnected (Except.error "connection reset") =
      Except.error (LogError.insertFailed "connection reset") ∧
    (Except.error (LogError.insertFailed "connection reset") :
      Except LogError HttpResponse) ≠ Except.ok respOk := by decide

/-- Claim C2 as amended: the middleware returns the response unchanged
exactly when persisting the audit record succeeds; when persisting
fails the error is logged and then RE-RAISED out of the middleware, so
the caller does not receive the original response; and an
uninitialized handle raises the loud not-initialized error. -/
theorem audit_persistence_surfaces (resp : HttpResponse) (st : MongoState)
    (insert : Except String Unit) :
    (st.initialized = true → insert = Except.ok () →
      log_requests resp st insert = Except.ok resp) ∧
    (∀ msg, st.initialized = true → insert = Except.error msg →
      log_requests resp st insert = Except.error (LogError.insertFailed msg)) ∧
    (st.initialized = false →
      log_requests resp st insert = Except.error LogError.notInitialized) := by
  refine ⟨fun h1 h2 => ?_, fun msg h1 h2 => ?_, fun h1 => ?_⟩
  · simp [log_requests, MongoDB.log_request, h1, h2]
  · simp [log_requests, MongoDB.log_request, h1, h2]
  · simp [log_requests, MongoDB.log_request, h1]

/-- Witness for the amended claim C2: a concrete failing insert is
re-raised. -/
theorem audit_persistence_surfaces_w :
    log_requests respOk stConnected (Except.error "boom") =
      Except.error (LogError.insertFailed "boom") :=
  (audit_persistence_surfaces respOk stConnected _).2.1 "boom" rfl rfl

/-! Claim C8 -/

/-- Claim C8: the persisted audit record's headers never contain a key
that lowercases to authorization, even when the request supplied one;
every other header pair is persisted unchanged; and appending an
authorization header with any value leaves the persisted header list
identical, so two requests differing only in the authorization value
persist identical header maps. -/
theorem authorization_header_redaction (uuid method path : String)
    (qp headers : List (String × String)) (ip : Option String)
    (status : ℕ) (ms : ℚ) (ua : Option String) :
    (∀ kv ∈ (RequestLogger.mkLog uuid method path qp headers ip status ms
        ua).headers, pyLower kv.1 ≠ "authorization") ∧
    (∀ kv ∈ headers, pyLower kv.1 ≠ "authorization" →
      kv ∈ (RequestLogger.mkLog uuid method path qp headers ip status ms
        ua).headers) ∧
    (∀ k v1 v2, pyLower k = "authorization" →
      (RequestLogger.mkLog uuid method path qp (headers ++ [(k, v1)]) ip
        status ms ua).headers =
      (RequestLogger.mkLog uuid method path qp (headers ++ [(k, v2)]) ip
        status ms ua).headers) := by
  refine ⟨?_, ?_, ?_⟩
  · intro kv hkv
    have := (List.mem_filter.mp hkv).2
    simpa [bne_iff_ne] using this
  · intro kv hkv hne
    exact List.mem_filter.mpr ⟨hkv, by simpa [bne_iff_ne] using hne⟩
  · intro k v1 v2 hk
    show filterHeaders (headers ++ [(k, v1)]) = filterHeaders (headers ++ [(k, v2)])
    simp [filterHeaders, List.filter_append, hk]

/-- Witness for claim C8: two concrete requests differing only in the
authorization value persist identical header lists. -/
theorem authorization_header_redaction_w :
    (RequestLogger.mkLog "id0" "GET" "/api/v1/jobs" []
      [("host", "h"), ("Authorization", "Bearer a")] none 200 3 none).headers =
    (RequestLogger.mkLog "id0" "GET" "/api/v1/jobs" []
      [("host", "h"), ("Authorization", "Bearer b")] none 200 3 none).headers :=
  (authorization_header_redaction "id0" "GET" "/api/v1/jobs" []
    [("host", "h")] none 200 3 none).2.2 "Authorization" "Bearer a" "Bearer b"
    (by decide)

/-! Claim C10 -/

/-- Claim C10: for every skip and every limit between 1 and 1000, the
logs endpoint queried while the configured storage collection does not
exist returns the empty list rather than an error, provided the
persistence connection is initialized. -/
theorem missing_collection_returns_empty (st : MongoState) (skip limit : ℕ)
    (hinit : st.initialized = true) (habs : st.collectionName ∉ st.collections)
    (_hlo : 1 ≤ limit) (_hhi : limit ≤ 1000) :
    LogApi.get_logs st skip limit = Except.ok [] := by
  simp [LogApi.get_logs, MongoDB.get_logs, hinit, habs]

/-- Witness for claim C10, at skip 0 and the default limit 100 against
a database with no collections. -/
theorem missing_collection_returns_empty_w :
    LogApi.get_logs ⟨true, "api_logs", [], []⟩ 0 100 = Except.ok [] :=
  missing_collection_returns_empty ⟨true, "api_logs", [], []⟩ 0 100 rfl
    (by decide) (by decide) (by decide)

/-! Claim C7 -/

/-- Claim C7 counterexample: a job-type input whose tokens are valid
after lowercasing is accepted, but the validated parameter keeps the
ORIGINAL string with its casing and duplicate tokens; the validator
output is not the lowercased, deduplicated token set the claim
requires. -/
theorem validated_tokens_cex :
    validate_job_type (some "Fulltime,fulltime") =
      Except.ok (some "Fulltime,fulltime") ∧
    (pySplit "Fulltime,fulltime" ',').length = 2 ∧
    "Fulltime" ≠ "fulltime" := by decide

/-- Claim C7 as amended: for inputs whose site and job-type tokens are
all valid, the validated site set is exactly the lowercased, stripped,
deduplicated set of the requested site tokens, while the validated
job-type value is only CHECKED against the lowercased deduplicated
token set and is stored as the original string unchanged. -/
theorem validated_tokens (l : List String) (s : String)
    (hsites : ∀ t ∈ l, pyLower (pyStrip t) ∈ validSites)
    (htypes : ∀ t ∈ pySplit s ',', pyLower (pyStrip t) ∈ validJobTypes) :
    validate_site_name (some l) =
      Except.ok (some ((l.map fun t => pyLower (pyStrip t)).toFinset)) ∧
    validate_job_type (some s) = Except.ok (some s) := by
  constructor
  · have hempty : ((l.map fun t => pyLower (pyStrip t)).toFinset : Finset String)
        \ validSites = ∅ := by
      rw [Finset.sdiff_eq_empty_iff_subset]
      intro x hx
      obtain ⟨t, ht, rfl⟩ := List.mem_map.mp (List.mem_toFinset.mp hx)
      exact hsites t ht
    simp [validate_site_name, hempty]
  · have hempty : (((pySplit s ',').map fun t => pyLower (pyStrip t)).toFinset :
        Finset String) \ validJobTypes = ∅ := by
      rw [Finset.sdiff_eq_empty_iff_subset]
      intro x hx
      obtain ⟨t, ht, rfl⟩ := List.mem_map.mp (List.mem_toFinset.mp hx)
      exact htypes t ht
    simp [validate_job_type, hempty]

/-- Witness for the amended claim C7: a mixed-case site token with
trailing whitespace is stripped, lowercased and accepted; a mixed-case
job type is accepted and stored unchanged. -/
theorem validated_tokens_w :
    validate_site_name (some ["LinkedIn ", "linkedin"]) =
      Except.ok (some ((["LinkedIn ", "linkedin"].map fun t =>
        pyLower (pyStrip t)).toFinset)) ∧
    validate_job_type (some "Fulltime") = Except.ok (some "Fulltime") :=
  validated_tokens ["LinkedIn ", "linkedin"] "Fulltime" (by decide) (by decide)

/-! Combination lemmas -/

theorem pySplitChars_ne_nil (sep : Char) (l : List Char) :
    pySplitChars sep l ≠ [] := by
  induction l with
  | nil => simp [pySplitChars]
  | cons c cs ih =>
    simp only [pySplitChars]
    split
    · simp
    · split <;> simp

theorem pySplit_ne_nil (s : String) (sep : Char) : pySplit s sep ≠ [] := by
  simp [pySplit, pySplitChars_ne_nil]

theorem splitParam_ne_nil (o : Option String) : splitParam o ≠ [] := by
  cases o with
  | none => simp [splitParam]
  | some s =>
    simp only [splitParam]
    split
    · simp
    · simp [pySplit_ne_nil]

theorem comboBlock_length (t : Option String) (ls js : List (Option String)) :
    (comboBlock t ls js).length = ls.length * js.length := by
  induction ls with
  | nil => simp [comboBlock]
  | cons l ls ih => simp [comboBlock, List.flatMap_cons, Nat.succ_mul, ih,
      comboBlock] at ih ⊢; omega

theorem combos_length (ts ls js : List (Option String)) :
    (combos ts ls js).length = ts.length * ls.length * js.length := by
  induction ts with
  | nil => simp [combos]
  | cons t ts ih =>
    simp only [combos, List.flatMap_cons, List.length_append] at ih ⊢
    rw [comboBlock_length, ih]
    simp [List.length_cons]
    ring

theorem combos_ne_nil (ts ls js : List (Option String)) (hts : ts ≠ [])
    (hls : ls ≠ []) (hjs : js ≠ []) : combos ts ls js ≠ [] := by
  rw [← List.length_pos] at hts hls hjs ⊢
  rw [combos_length]
  exact Nat.mul_pos (Nat.mul_pos hts hls) hjs

theorem comboBlock_getElem (t : Option String) (ls js : List (Option String))
    (i2 i3 : ℕ) (h2 : i2 < ls.length) (h3 : i3 < js.length) :
    (comboBlock t ls js)[i2 * js.length + i3]? = some ⟨t, ls[i2], js[i3]⟩ := by
  induction ls generalizing i2 with
  | nil => simp at h2
  | cons l ls ih =>
    cases i2 with
    | zero =>
      simp only [comboBlock, List.flatMap_cons]
      rw [Nat.zero_mul, Nat.zero_add,
        List.getElem?_append_left (by simpa using h3), List.getElem?_map,
        List.getElem?_eq_getElem h3]
      rfl
    | succ n =>
      have h2' : n < ls.length := by simpa using h2
      have harith : (n + 1) * js.length + i3 =
          js.length + (n * js.length + i3) := by ring
      simp only [comboBlock, List.flatMap_cons]
      rw [harith, List.getElem?_append_right (by simp), List.length_map,
        Nat.add_sub_cancel_left]
      simpa using ih n h2'

theorem combos_getElem (ts ls js : List (Option String)) (i1 i2 i3 : ℕ)
    (h1 : i1 < ts.length) (h2 : i2 < ls.length) (h3 : i3 < js.length) :
    (combos ts ls js)[(i1 * ls.length + i2) * js.length + i3]? =
      some ⟨ts[i1], ls[i2], js[i3]⟩ := by
  induction ts generalizing i1 with
  | nil => simp at h1
  | cons t ts ih =>
    cases i1 with
    | zero =>
      have hlt : i2 * js.length + i3 < (comboBlock t ls js).length := by
        rw [comboBlock_length]
        calc i2 * js.length + i3 < i2 * js.length + js.length := by omega
          _ = (i2 + 1) * js.length := by ring
          _ ≤ ls.length * js.length := Nat.mul_le_mul_right _ h2
      simp only [combos, List.flatMap_cons]
      rw [Nat.zero_mul, Nat.zero_add, List.getElem?_append_left hlt,
        comboBlock_getElem t ls js i2 i3 h2 h3]
      rfl
    | succ n =>
      have h1' : n < ts.length := by simpa using h1
      have harith : ((n + 1) * ls.length + i2) * js.length + i3 =
          ls.length * js.length + ((n * ls.length + i2) * js.length + i3) := by
        ring
      simp only [combos, List.flatMap_cons]
      rw [harith, List.getElem?_append_right (by rw [comboBlock_length]; omega),
        comboBlock_length, Nat.add_sub_cancel_left]
      simpa using ih n h1'

/-! Orchestrator execution lemmas -/

theorem convertAll_cons (j : RawJob) (js : List RawJob) :
    convertAll (j :: js) = Except.error "total_results: Field required" := rfl

/-- If some combination in the issued-scrape trace produced at least
one raw record, the run ends in the JobResponse validation error. -/
theorem runCombos_traced_nonempty (scrape : Combo → List RawJob)
    (sites : List String) (cs : List Combo) :
    ∀ (total : ℕ) (acc : List JobResponseOk),
    (∃ c ∈ (runCombos scrape sites cs total acc).2, scrape c ≠ []) →
    (runCombos scrape sites cs total acc).1 =
      Except.error (ApiError.conversionError "total_results: Field required") := by
  induction cs with
  | nil => intro total acc h; simp [runCombos] at h
  | cons c rest ih =>
    intro total acc h
    cases hv : validateParams sites c.job_type with
    | error e => simp [runCombos, hv] at h
    | ok p =>
      cases hs : scrape c with
      | nil =>
        simp only [runCombos, hv, hs, convertAll] at h ⊢
        rcases h with ⟨c2, hc2, hne⟩
        rcases List.mem_cons.mp hc2 with rfl | hc2
        · exact absurd hs hne
        · exact ih _ _ ⟨c2, hc2, hne⟩
      | cons j js =>
        simp [runCombos, hv, hs, convertAll_cons]

/-- When every combination validates and every scrape call returns the
empty record set, the loop visits every combination in order and
returns the initial accumulators. -/
theorem runCombos_all_empty (scrape : Combo → List RawJob)
    (sites : List String) (cs : List Combo) :
    ∀ (total : ℕ) (acc : List JobResponseOk),
    (∀ c ∈ cs, ∃ p, validateParams sites c.job_type = Except.ok p) →
    (∀ c, scrape c = []) →
    runCombos scrape sites cs total acc = (Except.ok (total, acc), cs) := by
  induction cs with
  | nil => intro total acc _ _; rfl
  | cons c rest ih =>
    intro total acc hval hemp
    obtain ⟨p, hp⟩ := hval c (List.mem_cons_self c rest)
    have hrest : ∀ c2 ∈ rest, ∃ p2, validateParams sites c2.job_type =
        Except.ok p2 := fun c2 hc2 => hval c2 (List.mem_cons_of_mem c hc2)
    simp [runCombos, hp, hemp c, convertAll, ih total acc hrest hemp]

/-! Claim C1 -/

/-- Claim C1: JobResponse declares total_results as a required field
and the per-record conversion in get_jobs never supplies it, so the
conversion fails on every record; consequently, whenever a scrape call
of a request returns at least one raw record, the endpoint returns the
validation-error response instead of the normalized job list. -/
theorem required_total_results_never_supplied :
    (∀ job : RawJob, convertJob job =
      Except.error "total_results: Field required") ∧
    ∀ (scrape : Combo → List RawJob) (args : RequestArgs),
      (∃ c ∈ (get_jobs scrape args).2, scrape c ≠ []) →
      (get_jobs scrape args).1 =
        Except.error (ApiError.conversionError "total_results: Field required") := by
  constructor
  · intro job; rfl
  · intro scrape args h
    simp only [get_jobs] at h ⊢
    rw [runCombos_traced_nonempty scrape _ _ _ _ h]

/-- The scraper stub returning one (empty-mapping) raw record for every
combination. -/
def oneRecordScraper : Combo → List RawJob := fun _ => [[]]

/-- A request with the declared default site_name and no list
parameters. -/
def argsDefault : RequestArgs := ⟨defaultSiteName, none, none, none⟩

/-- Witness for claim C1: with the default sites and a scraper
returning one record, the endpoint errors. -/
theorem required_total_results_never_supplied_w :
    (get_jobs oneRecordScraper argsDefault).1 =
      Except.error (ApiError.conversionError "total_results: Field required") :=
  required_total_results_never_supplied.2 oneRecordScraper argsDefault
    (by decide)

/-! Claim C4 -/

/-- Boolean success test for an Except value. -/
def Except.isOkB : Except ε α → Bool
  | Except.ok _ => true
  | Except.error _ => false

theorem Except.isOkB_iff (r : Except ε α) :
    r.isOkB = true ↔ ∃ a, r = Except.ok a := by
  cases r <;> simp [Except.isOkB]

/-- A request with two search terms and the declared default sites. -/
def argsTwoTerms : RequestArgs := ⟨defaultSiteName, some "a,b", none, none⟩

/-- The scraper stub returning no records for any combination. -/
def emptyScraper : Combo → List RawJob := fun _ => []

/-- Claim C4: the first conjunct evaluates the code at the failing
input: with two search terms (k1 x k2 x k3 = 2) and a scraper that
returns one record, only ONE scrape invocation is performed before the
required-total_results conversion error aborts the loop and the
endpoint errors.  The remaining conjuncts prove the intended fan-out on
the only path that completes: when every combination validates and
every scrape returns no records, exactly k1 x k2 x k3 invocations are
performed, in search_term-outermost, location-middle,
job_type-innermost declaration order. -/
theorem combination_fanout_and_order :
    ((get_jobs oneRecordScraper argsTwoTerms).2.length = 1 ∧
     (splitParam argsTwoTerms.search_term).length *
       (splitParam argsTwoTerms.location).length *
       (splitParam argsTwoTerms.job_type).length = 2 ∧
     (get_jobs oneRecordScraper argsTwoTerms).1 =
       Except.error (ApiError.conversionError "total_results: Field required")) ∧
    ∀ (scrape : Combo → List RawJob) (args : RequestArgs),
      (∀ c ∈ combos (splitParam args.search_term) (splitParam args.location)
          (splitParam args.job_type),
        ∃ p, validateParams (splitSites args.site_name) c.job_type =
          Except.ok p) →
      (∀ c, scrape c = []) →
      (get_jobs scrape args).2 = combos (splitParam args.search_term)
          (splitParam args.location) (splitParam args.job_type) ∧
      (get_jobs scrape args).1 = Except.ok ⟨0, []⟩ ∧
      (get_jobs scrape args).2.length =
        (splitParam args.search_term).length *
        (splitParam args.location).length *
        (splitParam args.job_type).length ∧
      ∀ (i1 i2 i3 : ℕ) (h1 : i1 < (splitParam args.search_term).length)
        (h2 : i2 < (splitParam args.location).length)
        (h3 : i3 < (splitParam args.job_type).length),
        (get_jobs scrape args).2[(i1 * (splitParam args.location).length + i2) *
            (splitParam args.job_type).length + i3]? =
          some ⟨(splitParam args.search_term)[i1],
            (splitParam args.location)[i2], (splitParam args.job_type)[i3]⟩ := by
  constructor
  · exact ⟨by decide, by decide, by decide⟩
  · intro scrape args hval hemp
    have hrun := runCombos_all_empty scrape (splitSites args.site_name)
      (combos (splitParam args.search_term) (splitParam args.location)
        (splitParam args.job_type)) 0 [] hval hemp
    have key : get_jobs scrape args = (Except.ok ⟨0, []⟩,
        combos (splitParam args.search_term) (splitParam args.location)
          (splitParam args.job_type)) := by
      simp only [get_jobs]
      rw [hrun]
    refine ⟨by rw [key], by rw [key], ?_, ?_⟩
    · rw [key, combos_length]
    · intro i1 i2 i3 h1 h2 h3
      rw [key]
      exact combos_getElem _ _ _ i1 i2 i3 h1 h2 h3

/-- Witness for claim C4 on the completing path: two search terms, no
records: both scrape invocations happen and the response is the empty
200 payload. -/
theorem combination_fanout_and_order_w :
    (get_jobs emptyScraper argsTwoTerms).1 = Except.ok ⟨0, []⟩ ∧
    (get_jobs emptyScraper argsTwoTerms).2.length = 2 := by
  have hval0 : ∀ c ∈ combos (splitParam argsTwoTerms.search_term)
      (splitParam argsTwoTerms.location) (splitParam argsTwoTerms.job_type),
      (validateParams (splitSites argsTwoTerms.site_name)
        c.job_type).isOkB = true := by decide
  have h := combination_fanout_and_order.2 emptyScraper argsTwoTerms
    (fun c hc => (Except.isOkB_iff _).mp (hval0 c hc)) (fun _ => rfl)
  exact ⟨h.2.1, by rw [h.2.2.1]; decide⟩

/-! Claim C9 -/

/-- The set of invalid lowercased site tokens of a request, as computed
by validate_site_name and named in its error message. -/
def siteInvalid (args : RequestArgs) : Finset String :=
  ((splitSites args.site_name).map fun s => pyLower (pyStrip s)).toFinset
    \ validSites

/-- Claim C9: a request whose site_name list contains a token outside
the valid site set is rejected with a validation error (an HTTP 400
client error) whose payload names exactly the invalid lowercased
tokens, every one of them, and lists the full valid site set; and the
issued-scrape trace is empty, so no external scrape call is made. -/
theorem invalid_site_rejected (scrape : Combo → List RawJob)
    (args : RequestArgs) (t : String) (ht : t ∈ splitSites args.site_name)
    (hbad : pyLower (pyStrip t) ∉ validSites) :
    ∃ jte, get_jobs scrape args =
      (Except.error (ApiError.paramsError
        ⟨some ⟨siteInvalid args, validSites⟩, jte⟩), []) ∧
      pyLower (pyStrip t) ∈ siteInvalid args ∧
      ∀ u ∈ splitSites args.site_name, pyLower (pyStrip u) ∉ validSites →
        pyLower (pyStrip u) ∈ siteInvalid args := by
  have hmem : pyLower (pyStrip t) ∈ siteInvalid args :=
    Finset.mem_sdiff.mpr
      ⟨List.mem_toFinset.mpr (List.mem_map.mpr ⟨t, ht, rfl⟩), hbad⟩
  have hne : ((((splitSites args.site_name).map fun s =>
      pyLower (pyStrip s)).toFinset : Finset String) \ validSites) ≠ ∅ :=
    Finset.ne_empty_of_mem hmem
  have hsite : validate_site_name (some (splitSites args.site_name)) =
      Except.error ⟨siteInvalid args, validSites⟩ := by
    simp only [validate_site_name]
    rw [if_neg hne]
    rfl
  obtain ⟨c, rest, hcs⟩ := List.exists_cons_of_ne_nil
    (combos_ne_nil (splitParam args.search_term) (splitParam args.location)
      (splitParam args.job_type) (splitParam_ne_nil _) (splitParam_ne_nil _)
      (splitParam_ne_nil _))
  refine ⟨(validate_job_type c.job_type).errOpt, ?_, hmem,
    fun u hu hubad => Finset.mem_sdiff.mpr
      ⟨List.mem_toFinset.mpr (List.mem_map.mpr ⟨u, hu, rfl⟩), hubad⟩⟩
  have hvp : validateParams (splitSites args.site_name) c.job_type =
      Except.error ⟨some ⟨siteInvalid args, validSites⟩,
        (validate_job_type c.job_type).errOpt⟩ := by
    cases hjt : validate_job_type c.job_type with
    | ok t2 => simp [validateParams, hsite, hjt, Except.errOpt]
    | error e2 => simp [validateParams, hsite, hjt, Except.errOpt]
  simp only [get_jobs, hcs]
  rw [show runCombos scrape (splitSites args.site_name) (c :: rest) 0 [] =
    (Except.error (ApiError.paramsError ⟨some ⟨siteInvalid args, validSites⟩,
      (validate_job_type c.job_type).errOpt⟩), []) from by
    simp [runCombos, hvp]]

/-- A request naming the unknown site xyz. -/
def argsXyz : RequestArgs := ⟨"xyz", none, none, none⟩

/-- Witness for claim C9: the concrete request with site_name xyz is
rejected with the invalid token named, and no scrape call is issued. -/
theorem invalid_site_rejected_w :
    ∃ jte, get_jobs emptyScraper argsXyz =
      (Except.error (ApiError.paramsError
        ⟨some ⟨siteInvalid argsXyz, validSites⟩, jte⟩), []) ∧
      pyLower (pyStrip "xyz") ∈ siteInvalid argsXyz ∧
      ∀ u ∈ splitSites argsXyz.site_name, pyLower (pyStrip u) ∉ validSites →
        pyLower (pyStrip u) ∈ siteInvalid argsXyz :=
  invalid_site_rejected emptyScraper argsXyz "xyz" (by decide) (by decide)
